import Mathlib

/-!
Verification of the session/lifecycle core of the Powerlift gym management
application: the idle-timeout auto-lock, the warning countdown, the
foreground-reentry authorization gate driven by the host AppState signal,
and the photo-operation exemption flag.

The definitions below are a shallow embedding of the TypeScript source.
The repository contains two revisions of the SessionManager component:

- the current revision (first chunk of
  src/client/components/SessionManager.tsx), which keeps a module-level
  ref `isPhotoOperationScreenRef` set by screens on mount and cleared by
  screens on unmount; the foreground branch of the AppState listener checks
  the ref and, when it is set, returns without modifying it;
- an earlier revision (second chunk of the same file), which keeps a
  module-level ref `photoOperationRef` set by screens before launching the
  camera or gallery; the foreground branch consumes the ref, resetting it
  to false before returning.

Both are embedded: namespace `SessionManager` holds the current revision,
namespace `SessionManagerV3` the earlier consume-once revision, and
namespace `SessionManagerV1` the foreground branch of the first revision
found in src/unnamed/part_001.  Timers are modelled with virtual time: the
`setTimeout` idle deadline becomes an `Option Nat` absolute deadline, and
delivery of the scheduled callback is the function `advanceTo`.  The 1 Hz
`setInterval` countdown callback becomes the function `countdownTick`.
-/

namespace Powerlift

/-- Idle timeout in milliseconds, `IDLE_TIME = 2 * 60 * 1000`
(SessionManager.tsx line 9). -/
def IDLE_TIME : Nat := 2 * 60 * 1000

/-- Countdown length in ticks, `COUNTDOWN_SECONDS = 10`
(SessionManager.tsx line 10). -/
def COUNTDOWN_SECONDS : Nat := 10

/-- Visibility events delivered by the host through
`AppState.addEventListener("change", ...)`: `"background"` and `"active"`. -/
inductive AppStateEvent where
  | background
  | active
  deriving DecidableEq

/-- Observable side effects of the session manager: the two haptic calls of
the countdown callback, the success haptic of the PIN gate, and the
invocation of `safeLogout` (whose internal sequencing is modelled separately
below). -/
inductive Effect where
  | hapticMedium
  | hapticError
  | hapticSuccess
  | safeLogout
  deriving DecidableEq

namespace SessionManager

/-- State of the current-revision SessionManager component together with the
module-level ref and the context fields it reads.

Field correspondence with src/client/components/SessionManager.tsx:
`isAuthenticated` and `timeoutDisabled` come from `useApp()` (line 22);
`isPhotoOperationScreen` is `isPhotoOperationScreenRef.current` (line 14);
`showModal` and `countdown` are the two `useState` cells (lines 29-30);
`idleDeadline` models `idleTimer.current` as the absolute virtual time at
which the pending `setTimeout` fires (`none` when no timeout is pending);
`countdownRunning` models whether `countdownTimer.current` holds a live
interval; `now` is the virtual clock used to resolve the deadline. -/
structure SMState where
  isAuthenticated : Bool
  timeoutDisabled : Bool
  isPhotoOperationScreen : Bool
  showModal : Bool
  countdown : Nat
  idleDeadline : Option Nat
  countdownRunning : Bool
  now : Nat
  deriving DecidableEq

/-- `setIsPhotoOperationScreen` (SessionManager.tsx lines 16-19): writes the
module-level ref. -/
def setIsPhotoOperationScreen (value : Bool) (s : SMState) : SMState :=
  { s with isPhotoOperationScreen := value }

/-- Net state effect of `safeLogout` (SessionManager.tsx lines 33-45):
`setShowModal(false)`, then asynchronously `setAuthenticated(false)` and a
navigation dispatch to the Pin screen.  The `Effect.safeLogout` marker
records the invocation; the nested `setTimeout` sequencing is modelled by
`safeLogoutProg` below. -/
def safeLogout (s : SMState) : SMState × List Effect :=
  ({ s with showModal := false, isAuthenticated := false }, [Effect.safeLogout])

/-- `startCountdown` (SessionManager.tsx lines 48-64): `setCountdown(10)` and
installation of the 1 Hz interval.  The interval callback body itself is
`countdownTick`. -/
def startCountdown (s : SMState) : SMState :=
  { s with countdown := COUNTDOWN_SECONDS, countdownRunning := true }

/-- One firing of the countdown interval callback (SessionManager.tsx
lines 51-63): with the previous value `prev`, fire a medium haptic when
`prev === 2`; when `prev <= 1`, clear the interval, fire the error haptic and
invoke `safeLogout`; finally store `prev - 1`.  When no interval is live the
callback does not fire. -/
def countdownTick (s : SMState) : SMState × List Effect :=
  if s.countdownRunning then
    let e1 : List Effect := if s.countdown = 2 then [Effect.hapticMedium] else []
    if s.countdown ≤ 1 then
      let r := safeLogout { s with countdownRunning := false }
      ({ r.1 with countdown := s.countdown - 1 }, e1 ++ [Effect.hapticError] ++ r.2)
    else
      ({ s with countdown := s.countdown - 1 }, e1)
  else (s, [])

/-- Iterated firings of the countdown interval, accumulating effects. -/
def countdownTicks : Nat → SMState → SMState × List Effect
  | 0, s => (s, [])
  | n + 1, s =>
    let r1 := countdownTick s
    let r2 := countdownTicks n r1.1
    (r2.1, r1.2 ++ r2.2)

/-- `resetIdleTimer` (SessionManager.tsx lines 67-76): early return unless
authenticated and the timeout feature is enabled; otherwise cancel any
pending idle timeout and schedule a fresh one `IDLE_TIME` from now.  The
scheduled callback body (shown modal plus `startCountdown`) is delivered by
`advanceTo`. -/
def resetIdleTimer (s : SMState) : SMState :=
  if !s.isAuthenticated || s.timeoutDisabled then s
  else { s with idleDeadline := some (s.now + IDLE_TIME) }

/-- Delivery of the virtual clock reaching time `t`: if the pending idle
timeout's deadline has passed, its callback (SessionManager.tsx lines 72-75:
`setShowModal(true); startCountdown()`) fires and the timeout is gone. -/
def advanceTo (t : Nat) (s : SMState) : SMState :=
  match s.idleDeadline with
  | none => { s with now := t }
  | some d =>
    if d ≤ t then
      startCountdown { s with now := t, showModal := true, idleDeadline := none }
    else { s with now := t }

/-- `handleUserInteraction` (SessionManager.tsx lines 79-86): ignore
interactions when unauthenticated or the timeout feature is disabled, and do
not reset the idle timer while the countdown modal is showing. -/
def handleUserInteraction (s : SMState) : SMState :=
  if !s.isAuthenticated || s.timeoutDisabled then s
  else if s.showModal then s
  else resetIdleTimer s

/-- A qualifying user interaction arriving at virtual time `t`. -/
def interactAt (t : Nat) (s : SMState) : SMState :=
  handleUserInteraction (advanceTo t s)

/-- `handleStay` (SessionManager.tsx lines 137-145): hide the modal, clear
the countdown interval, then (50 ms later) `resetIdleTimer`. -/
def handleStay (s : SMState) : SMState :=
  resetIdleTimer { s with showModal := false, countdownRunning := false }

/-- Mount effect of the photo-operation screens (MemberDetailScreen.tsx
lines 40-42, RegisterScreen in src/unnamed/part_004 lines 24-26):
`setIsPhotoOperationScreen(true)`. -/
def screenMount (s : SMState) : SMState :=
  setIsPhotoOperationScreen true s

/-- Unmount cleanup of the photo-operation screens (MemberDetailScreen.tsx
lines 44-51, RegisterScreen in src/unnamed/part_004 lines 28-35): a delayed
`setIsPhotoOperationScreen(false)` scheduled 500 ms after unmount. -/
def screenUnmountCleanup (s : SMState) : SMState :=
  setIsPhotoOperationScreen false s

/-- The AppState change handler of the current revision (SessionManager.tsx
lines 89-119).  The subscription exists only while `isAuthenticated` is true
(line 90), so an event delivered while unauthenticated changes nothing.  On
`"background"`: cancel the idle timeout, clear the countdown interval, hide
the modal (lines 96-100).  On `"active"`: when `isPhotoOperationScreenRef`
is set, return without touching it (lines 104-107); otherwise invoke
`safeLogout` (lines 109-111). -/
def handleAppStateChange (ev : AppStateEvent) (s : SMState) : SMState × List Effect :=
  if s.isAuthenticated = false then (s, [])
  else
    match ev with
    | .background =>
      ({ s with idleDeadline := none, countdownRunning := false, showModal := false }, [])
    | .active =>
      if s.isPhotoOperationScreen then (s, [])
      else safeLogout s

/-- The schedulable activities of the current revision that touch the shared
session state: a user interaction at virtual time `t`, the clock reaching
time `t` (delivering a due idle timeout), an AppState event, the stay button
of the countdown modal, one countdown interval firing, and a screen writing
the photo-operation ref. -/
inductive Op where
  | interact (t : Nat)
  | advance (t : Nat)
  | appState (ev : AppStateEvent)
  | stay
  | tick
  | setExempt (v : Bool)

/-- Dispatch one activity against the state. -/
def applyOp (s : SMState) : Op → SMState × List Effect
  | .interact t => (interactAt t s, [])
  | .advance t => (advanceTo t s, [])
  | .appState ev => handleAppStateChange ev s
  | .stay => (handleStay s, [])
  | .tick => countdownTick s
  | .setExempt v => (setIsPhotoOperationScreen v s, [])

/-- Run a sequence of activities, accumulating effects. -/
def run (s : SMState) : List Op → SMState × List Effect
  | [] => (s, [])
  | op :: ops =>
    let r1 := applyOp s op
    let r2 := run r1.1 ops
    (r2.1, r1.2 ++ r2.2)

/-- Run a sequence of user interactions given by their virtual times. -/
def runInteractions (s : SMState) : List Nat → SMState
  | [] => s
  | t :: ts => runInteractions (interactAt t s) ts

/-- The interaction times `ts` each arrive strictly before the idle deadline
that is pending when they are processed. -/
inductive BeforeDeadlines : SMState → List Nat → Prop where
  | nil (s : SMState) : BeforeDeadlines s []
  | cons (s : SMState) (t : Nat) (ts : List Nat) (d : Nat)
      (hd : s.idleDeadline = some d) (ht : t < d)
      (h : BeforeDeadlines (interactAt t s) ts) : BeforeDeadlines s (t :: ts)

/-- The configuration of an authenticated, timeout-enabled session in the
`Unlocked` phase: no countdown modal showing and no countdown running. -/
def IdleInv (s : SMState) : Prop :=
  s.isAuthenticated = true ∧ s.timeoutDisabled = false ∧
  s.showModal = false ∧ s.countdownRunning = false

/-- The configuration reachable while the timeout-disable setting is on:
no idle deadline is armed and no countdown interval is live. -/
def TimeoutOffInv (s : SMState) : Prop :=
  s.timeoutDisabled = true ∧ s.idleDeadline = none ∧ s.countdownRunning = false

end SessionManager

namespace SessionManagerV3

/-- State of the earlier consume-once revision (second chunk of
SessionManager.tsx).  `photoOperation` is `photoOperationRef.current`
(line 231 of the concatenated file); the remaining fields are as in
`SessionManager.SMState`. -/
structure SMState where
  isAuthenticated : Bool
  timeoutDisabled : Bool
  photoOperation : Bool
  showModal : Bool
  countdown : Nat
  idleDeadline : Option Nat
  countdownRunning : Bool
  now : Nat
  deriving DecidableEq

/-- `setPhotoOperationInProgress` (concatenated SessionManager.tsx
lines 233-236): writes the module-level ref. -/
def setPhotoOperationInProgress (value : Bool) (s : SMState) : SMState :=
  { s with photoOperation := value }

/-- Net state effect of `safeLogout` in the earlier revision (identical body,
concatenated SessionManager.tsx lines 250-262). -/
def safeLogout (s : SMState) : SMState × List Effect :=
  ({ s with showModal := false, isAuthenticated := false }, [Effect.safeLogout])

/-- The AppState change handler of the earlier revision (concatenated
SessionManager.tsx lines 306-338).  On `"active"`, when `photoOperationRef`
is set, it is reset to false before returning (lines 321-326); otherwise
`safeLogout` is invoked. -/
def handleAppStateChange (ev : AppStateEvent) (s : SMState) : SMState × List Effect :=
  if s.isAuthenticated = false then (s, [])
  else
    match ev with
    | .background =>
      ({ s with idleDeadline := none, countdownRunning := false, showModal := false }, [])
    | .active =>
      if s.photoOperation then ({ s with photoOperation := false }, [])
      else safeLogout s

end SessionManagerV3

namespace SessionManagerV1

/-- The AppState listener of the first revision (src/unnamed/part_001
lines 70-76): it is installed unconditionally and merely calls
`resetIdleTimer` on `"active"`; `resetIdleTimer` itself early-returns when
unauthenticated.  It operates on the same state shape as the current
revision without reading the photo-operation ref. -/
def handleAppStateChange (ev : AppStateEvent) (s : SessionManager.SMState) :
    SessionManager.SMState :=
  match ev with
  | .active => SessionManager.resetIdleTimer s
  | .background => s

end SessionManagerV1

namespace PinScreen

/-- State of the PIN gate (src/client/screens/PinScreen.tsx): the six
`useState` cells of the component (lines 21-26) plus the two context setters'
targets `isAuthenticated` and `hasPin`. -/
structure PinState where
  pin : String
  confirmPin : String
  isCreating : Bool
  isConfirming : Bool
  error : String
  storedPin : Option String
  isAuthenticated : Bool
  hasPin : Bool
  deriving DecidableEq

/-- `handleSubmit` (PinScreen.tsx lines 104-143).  The verification branch
(lines 133-142) compares the entered PIN with the stored one: on a match it
authenticates with a success haptic; on a mismatch it sets the inline error
message, clears the entered input and fires the error haptic — returning
normally in every case.  The creation branch (lines 105-132) is embedded
with the outcome of the secure-store write abstracted as the boolean
`persistOk` (the `try`/`catch` of lines 121-132). -/
def handleSubmit (persistOk : Bool) (s : PinState) : PinState × List Effect :=
  if s.isCreating then
    if s.pin.length ≠ 4 then
      ({ s with error := "PIN must be 4 digits" }, [Effect.hapticError])
    else if !s.isConfirming then
      ({ s with isConfirming := true }, [])
    else if s.pin ≠ s.confirmPin then
      ({ s with error := "PINs do not match", confirmPin := "" }, [Effect.hapticError])
    else if persistOk then
      ({ s with hasPin := true, isAuthenticated := true }, [Effect.hapticSuccess])
    else
      ({ s with error := "Failed to save PIN" }, [])
  else
    if some s.pin = s.storedPin then
      ({ s with isAuthenticated := true }, [Effect.hapticSuccess])
    else
      ({ s with error := "Incorrect PIN", pin := "" }, [Effect.hapticError])

end PinScreen

namespace EventLoop

/-- User-interface actions performed by `safeLogout`. -/
inductive UIAct where
  | hideModal
  | clearAuth
  | navigate
  deriving DecidableEq

/-- A fragment of callback code: a sequence of actions interleaved with
`setTimeout`-style scheduling of further fragments. -/
inductive Prog where
  | done
  | act (a : UIAct) (rest : Prog)
  | schedule (delay : Nat) (task : Prog) (rest : Prog)

/-- Run one fragment to completion at time `now`: collect its synchronous
actions and the tasks it schedules, stamped with their absolute due times. -/
def runSyncAt (now : Nat) : Prog → List UIAct × List (Nat × Prog)
  | .done => ([], [])
  | .act a rest =>
    let r := runSyncAt now rest
    (a :: r.1, r.2)
  | .schedule d task rest =>
    let r := runSyncAt now rest
    (r.1, (now + d, task) :: r.2)

/-- Insert a task into the queue keeping it sorted by due time, behind
already-queued tasks that are due no later. -/
def insertTask (t : Nat × Prog) : List (Nat × Prog) → List (Nat × Prog)
  | [] => [t]
  | u :: us => if u.1 ≤ t.1 then u :: insertTask t us else t :: u :: us

/-- The single-threaded event loop: each queued task runs to completion in
its own scheduling turn, in due-time order; tasks it schedules join the
queue.  `fuel` bounds the number of turns. -/
def runLoop : Nat → List (Nat × Prog) → List (Nat × List UIAct)
  | 0, _ => []
  | _ + 1, [] => []
  | fuel + 1, q :: qs =>
    let r := runSyncAt q.1 q.2
    (q.1, r.1) :: runLoop fuel (r.2.foldl (fun acc t => insertTask t acc) qs)

/-- The full trace of a callback invoked at time 0: its synchronous turn
followed by every scheduled turn, each tagged with its due time. -/
def trace (fuel : Nat) (p : Prog) : List (Nat × List UIAct) :=
  let r := runSyncAt 0 p
  (0, r.1) :: runLoop fuel r.2

/-- `safeLogout` as callback code (SessionManager.tsx lines 33-45):
synchronously `setShowModal(false)`; `setTimeout(..., 0)` of a task that runs
`setAuthenticated(false)` and in turn schedules, `setTimeout(..., 150)`, the
navigation dispatch to the Pin screen. -/
def safeLogoutProg : Prog :=
  .act .hideModal
    (.schedule 0
      (.act .clearAuth
        (.schedule 150 (.act .navigate .done) .done))
      .done)

end EventLoop

/-- A freshly authenticated session with no timers armed, no modal, the
exemption ref clear, and the virtual clock at zero. -/
def sessionStart : SessionManager.SMState :=
  { isAuthenticated := true
    timeoutDisabled := false
    isPhotoOperationScreen := false
    showModal := false
    countdown := COUNTDOWN_SECONDS
    idleDeadline := none
    countdownRunning := false
    now := 0 }

/-- The same fresh session in the earlier revision's state shape. -/
def sessionStartV3 : SessionManagerV3.SMState :=
  { isAuthenticated := true
    timeoutDisabled := false
    photoOperation := false
    showModal := false
    countdown := COUNTDOWN_SECONDS
    idleDeadline := none
    countdownRunning := false
    now := 0 }

/-- One Background to Foreground cycle processed by the current revision's
AppState handler: the `"background"` event followed by the `"active"` event,
with the effects of the foreground step reported. -/
def SessionManager.bgFg (s : SessionManager.SMState) :
    SessionManager.SMState × List Effect :=
  SessionManager.handleAppStateChange .active
    (SessionManager.handleAppStateChange .background s).1

/-- One Background to Foreground cycle processed by the earlier revision's
AppState handler. -/
def SessionManagerV3.bgFg (s : SessionManagerV3.SMState) :
    SessionManagerV3.SMState × List Effect :=
  SessionManagerV3.handleAppStateChange .active
    (SessionManagerV3.handleAppStateChange .background s).1

/-- A fresh session with the idle deadline armed by `resetIdleTimer`. -/
def armedSession : SessionManager.SMState :=
  SessionManager.resetIdleTimer sessionStart

/-- A fresh session with the timeout-disable setting switched on. -/
def disabledSession : SessionManager.SMState :=
  { sessionStart with timeoutDisabled := true }

/-- The PIN gate waiting for verification of a stored PIN. -/
def pinGate : PinScreen.PinState :=
  { pin := "1111"
    confirmPin := ""
    isCreating := false
    isConfirming := false
    error := ""
    storedPin := some "1234"
    isAuthenticated := false
    hasPin := true }

namespace SessionManager

theorem interactAt_before_deadline (s : SMState) (t d : Nat)
    (hinv : IdleInv s) (hd : s.idleDeadline = some d) (ht : t < d) :
    interactAt t s = { s with now := t, idleDeadline := some (t + IDLE_TIME) } := by
  obtain ⟨ha, hto, hm, _⟩ := hinv
  have hnle : ¬ d ≤ t := Nat.not_le.mpr ht
  simp [interactAt, advanceTo, handleUserInteraction, resetIdleTimer, hd, hnle, ha, hto, hm]

theorem runInteractions_idleInv (s : SMState) (ts : List Nat)
    (h : BeforeDeadlines s ts) :
    IdleInv s → IdleInv (runInteractions s ts) := by
  induction h with
  | nil s => intro hinv; simpa [runInteractions] using hinv
  | cons s t ts d hd ht _ ih =>
    intro hinv
    have hstep := interactAt_before_deadline s t d hinv hd ht
    have hinv2 : IdleInv (interactAt t s) := by
      rw [hstep]
      exact ⟨hinv.1, hinv.2.1, hinv.2.2.1, hinv.2.2.2⟩
    simpa [runInteractions] using ih hinv2

theorem countdownTick_gt (s : SMState) (h1 : s.countdownRunning = true)
    (h2 : 2 < s.countdown) :
    countdownTick s = ({ s with countdown := s.countdown - 1 }, []) := by
  have hne : ¬ s.countdown = 2 := by omega
  have hnle : ¬ s.countdown ≤ 1 := by omega
  simp [countdownTick, h1, hne, hnle]

theorem countdownTick_two (s : SMState) (h1 : s.countdownRunning = true)
    (h2 : s.countdown = 2) :
    countdownTick s = ({ s with countdown := 1 }, [Effect.hapticMedium]) := by
  simp [countdownTick, h1, h2]

theorem countdownTick_one (s : SMState) (h1 : s.countdownRunning = true)
    (h2 : s.countdown = 1) :
    countdownTick s =
      ({ s with
          countdown := 0
          countdownRunning := false
          showModal := false
          isAuthenticated := false },
       [Effect.hapticError, Effect.safeLogout]) := by
  simp [countdownTick, safeLogout, h1, h2]

theorem countdownTicks_one (s : SMState) :
    countdownTicks 1 s = ((countdownTick s).1, (countdownTick s).2 ++ []) := rfl

theorem countdownTicks_add (m n : Nat) (s : SMState) :
    countdownTicks (m + n) s =
      ((countdownTicks n (countdownTicks m s).1).1,
       (countdownTicks m s).2 ++ (countdownTicks n (countdownTicks m s).1).2) := by
  induction m generalizing s with
  | zero => simp [countdownTicks]
  | succ m ih =>
    rw [Nat.succ_add]
    simp [countdownTicks, ih, List.append_assoc]

theorem countdownTicks_inv (k : Nat) (s : SMState) (h1 : s.countdownRunning = true)
    (h2 : k + 2 ≤ s.countdown) :
    countdownTicks k s = ({ s with countdown := s.countdown - k }, []) := by
  induction k generalizing s with
  | zero => simp [countdownTicks]
  | succ k ih =>
    have hstep := countdownTick_gt s h1 (by omega)
    have hrec := ih { s with countdown := s.countdown - 1 } h1 (by simp; omega)
    simp [countdownTicks, hstep, hrec]
    omega

theorem ticks8 (s : SMState) :
    countdownTicks 8 (startCountdown s) =
      ({ s with countdown := 2, countdownRunning := true }, []) := by
  have h := countdownTicks_inv 8 (startCountdown s) rfl
    (by simp [startCountdown, COUNTDOWN_SECONDS])
  simpa [startCountdown, COUNTDOWN_SECONDS] using h

theorem ticks9 (s : SMState) :
    countdownTicks 9 (startCountdown s) =
      ({ s with countdown := 1, countdownRunning := true }, [Effect.hapticMedium]) := by
  have h8 := ticks8 s
  have hx : (countdownTicks 8 (startCountdown s)).1 =
      { s with countdown := 2, countdownRunning := true } := by rw [h8]
  have he : (countdownTicks 8 (startCountdown s)).2 = [] := by rw [h8]
  have h := countdownTicks_add 8 1 (startCountdown s)
  rw [show (9 : Nat) = 8 + 1 from rfl, h, hx, he, countdownTicks_one,
    countdownTick_two _ rfl rfl]
  simp

theorem ticks10 (s : SMState) :
    countdownTicks 10 (startCountdown s) =
      ({ s with
          countdown := 0
          countdownRunning := false
          showModal := false
          isAuthenticated := false },
       [Effect.hapticMedium, Effect.hapticError, Effect.safeLogout]) := by
  have h9 := ticks9 s
  have hx : (countdownTicks 9 (startCountdown s)).1 =
      { s with countdown := 1, countdownRunning := true } := by rw [h9]
  have he : (countdownTicks 9 (startCountdown s)).2 = [Effect.hapticMedium] := by rw [h9]
  have h := countdownTicks_add 9 1 (startCountdown s)
  rw [show (10 : Nat) = 9 + 1 from rfl, h, hx, he, countdownTicks_one,
    countdownTick_one _ rfl rfl]
  simp

theorem ticks_lt10 (s : SMState) (k : Nat) (hk : k < 10) :
    (countdownTicks k (startCountdown s)).1 =
      { s with countdown := 10 - k, countdownRunning := true } ∧
    Effect.safeLogout ∉ (countdownTicks k (startCountdown s)).2 := by
  rcases Nat.lt_or_ge k 9 with h9 | h9
  · have h := countdownTicks_inv k (startCountdown s) rfl
      (by simp [startCountdown, COUNTDOWN_SECONDS]; omega)
    rw [h]
    simp [startCountdown, COUNTDOWN_SECONDS]
  · have hk9 : k = 9 := by omega
    subst hk9
    rw [ticks9]
    simp

theorem timeoutOff_applyOp (s : SMState) (op : Op)
    (hinv : TimeoutOffInv s) : TimeoutOffInv (applyOp s op).1 := by
  obtain ⟨hto, hdl, hcr⟩ := hinv
  cases op with
  | interact t =>
    simp [applyOp, interactAt, advanceTo, handleUserInteraction, hdl, hto,
      TimeoutOffInv, hcr]
  | advance t =>
    simp [applyOp, advanceTo, hdl, TimeoutOffInv, hto, hcr]
  | appState ev =>
    cases ev with
    | background =>
      by_cases ha : s.isAuthenticated = false <;>
        simp [applyOp, handleAppStateChange, ha, TimeoutOffInv, hto, hdl, hcr]
    | active =>
      by_cases ha : s.isAuthenticated = false
      · simp [applyOp, handleAppStateChange, ha, TimeoutOffInv, hto, hdl, hcr]
      · by_cases hp : s.isPhotoOperationScreen <;>
          simp [applyOp, handleAppStateChange, ha, hp, safeLogout,
            TimeoutOffInv, hto, hdl, hcr]
  | stay =>
    simp [applyOp, handleStay, resetIdleTimer, hto, TimeoutOffInv, hdl]
  | tick =>
    simp [applyOp, countdownTick, hcr, TimeoutOffInv, hto, hdl]
  | setExempt v =>
    simp [applyOp, setIsPhotoOperationScreen, TimeoutOffInv, hto, hdl, hcr]

theorem timeoutOff_run (s : SMState) (ops : List Op)
    (hinv : TimeoutOffInv s) : TimeoutOffInv (run s ops).1 := by
  induction ops generalizing s with
  | nil => simpa [run] using hinv
  | cons op ops ih =>
    simpa [run] using ih (applyOp s op).1 (timeoutOff_applyOp s op hinv)

end SessionManager

/-- C1, counterexample.  In the current revision, start authenticated with
the flag just set: after one Background to Foreground cycle the flag is
still `true` (the claim says it is `false` afterwards), and a second cycle
without an intervening `setExempt(true)` produces no forced logout (the
claim says it invokes forced logout). -/
theorem bypass_consumption_counterexample :
    (SessionManager.bgFg
        (SessionManager.setIsPhotoOperationScreen true sessionStart)).1.isPhotoOperationScreen
      = true ∧
    (SessionManager.bgFg
        (SessionManager.bgFg
          (SessionManager.setIsPhotoOperationScreen true sessionStart)).1).2 = [] := by
  decide

/-- C1, amended.  In the current revision (`isPhotoOperationScreenRef`), a
Background to Foreground cycle while the flag is set skips re-authentication
but does not consume the flag: it stays `true`, and a second cycle without
an intervening `setExempt(true)` also skips re-authentication.  The claimed
at-most-once consumption holds in the earlier `photoOperationRef` revision:
there the first cycle skips re-authentication and resets the flag to
`false`, and a second cycle invokes forced logout. -/
theorem bypass_consumption_across_revisions :
    (∀ s : SessionManager.SMState, s.isAuthenticated = true →
      (SessionManager.bgFg (SessionManager.setIsPhotoOperationScreen true s)).2 = [] ∧
      (SessionManager.bgFg
          (SessionManager.setIsPhotoOperationScreen true s)).1.isAuthenticated = true ∧
      (SessionManager.bgFg
          (SessionManager.setIsPhotoOperationScreen true s)).1.isPhotoOperationScreen = true ∧
      (SessionManager.bgFg
          (SessionManager.bgFg
            (SessionManager.setIsPhotoOperationScreen true s)).1).2 = []) ∧
    (∀ s : SessionManagerV3.SMState, s.isAuthenticated = true →
      (SessionManagerV3.bgFg (SessionManagerV3.setPhotoOperationInProgress true s)).2 = [] ∧
      (SessionManagerV3.bgFg
          (SessionManagerV3.setPhotoOperationInProgress true s)).1.isAuthenticated = true ∧
      (SessionManagerV3.bgFg
          (SessionManagerV3.setPhotoOperationInProgress true s)).1.photoOperation = false ∧
      (SessionManagerV3.bgFg
          (SessionManagerV3.bgFg
            (SessionManagerV3.setPhotoOperationInProgress true s)).1).2
        = [Effect.safeLogout]) := by
  constructor
  · intro s ha
    simp [SessionManager.bgFg, SessionManager.handleAppStateChange,
      SessionManager.setIsPhotoOperationScreen, ha]
  · intro s ha
    simp [SessionManagerV3.bgFg, SessionManagerV3.handleAppStateChange,
      SessionManagerV3.setPhotoOperationInProgress, SessionManagerV3.safeLogout, ha]

/-- Witness for the amended C1 theorem at the fresh session of each
revision. -/
theorem bypass_consumption_across_revisions_witness :
    (SessionManager.bgFg
        (SessionManager.setIsPhotoOperationScreen true sessionStart)).2 = [] ∧
    (SessionManagerV3.bgFg
        (SessionManagerV3.bgFg
          (SessionManagerV3.setPhotoOperationInProgress true sessionStartV3)).1).2
      = [Effect.safeLogout] :=
  ⟨(bypass_consumption_across_revisions.1 sessionStart rfl).1,
   (bypass_consumption_across_revisions.2 sessionStartV3 rfl).2.2.2⟩

/-- C2, counterexample.  In the current revision, a photo-operation screen
is mounted (flag set) and the app goes through one Background to Foreground
cycle — the external flow returning.  The Visibility Monitor leaves the flag
`true` (it never clears it), and the screen's own unmount cleanup then sets
it to `false`: a screen operation clears the flag after the external flow
returned, contradicting the claimed exclusive monitor ownership. -/
theorem flag_clearing_ownership_counterexample :
    (SessionManager.bgFg (SessionManager.screenMount sessionStart)).1.isPhotoOperationScreen
      = true ∧
    (SessionManager.screenUnmountCleanup
        (SessionManager.bgFg
          (SessionManager.screenMount sessionStart)).1).isPhotoOperationScreen = false := by
  decide

/-- C2, amended.  In the current revision the AppState handler never changes
the flag — in particular the foreground branch does not clear it — and the
screens' unmount cleanup is what sets it to `false`.  The claimed discipline
(cleared only by the monitor, by consuming a pending `true` on a foreground
transition) describes the earlier `photoOperationRef` revision, whose
handler clears the flag exactly when the event is `"active"`, the session is
authenticated and the flag is set. -/
theorem flag_clearing_ownership_by_revision :
    (∀ (s : SessionManager.SMState) (ev : AppStateEvent),
      (SessionManager.handleAppStateChange ev s).1.isPhotoOperationScreen
        = s.isPhotoOperationScreen) ∧
    (∀ s : SessionManager.SMState,
      (SessionManager.screenUnmountCleanup s).isPhotoOperationScreen = false) ∧
    (∀ (s : SessionManagerV3.SMState) (ev : AppStateEvent),
      (SessionManagerV3.handleAppStateChange ev s).1.photoOperation =
        (if ev = AppStateEvent.active ∧ s.isAuthenticated = true ∧ s.photoOperation = true
          then false else s.photoOperation)) := by
  refine ⟨?_, ?_, ?_⟩
  · intro s ev
    by_cases ha : s.isAuthenticated = false
    · simp [SessionManager.handleAppStateChange, ha]
    · cases ev
      · simp [SessionManager.handleAppStateChange, ha]
      · by_cases hp : s.isPhotoOperationScreen <;>
          simp [SessionManager.handleAppStateChange, SessionManager.safeLogout, ha, hp]
  · intro s
    rfl
  · intro s ev
    by_cases ha : s.isAuthenticated = false
    · simp [SessionManagerV3.handleAppStateChange, ha]
    · have ha' : s.isAuthenticated = true := by
        cases hab : s.isAuthenticated
        · exact absurd hab ha
        · rfl
      cases ev
      · simp [SessionManagerV3.handleAppStateChange, ha']
      · by_cases hp : s.photoOperation <;>
          simp [SessionManagerV3.handleAppStateChange, SessionManagerV3.safeLogout, ha', hp]

/-- C3.  While authenticated, the `"background"` branch cancels the idle
deadline, cancels any running countdown and hides the modal; and after such
a backgrounding, a `"active"` event with no pending exemption invokes
`safeLogout` — the countdown is not resumed (the interval stays cleared) and
authentication is cleared. -/
theorem background_suspension :
    (∀ s : SessionManager.SMState, s.isAuthenticated = true →
      SessionManager.handleAppStateChange AppStateEvent.background s =
        ({ s with idleDeadline := none, countdownRunning := false, showModal := false },
         [])) ∧
    (∀ s : SessionManager.SMState, s.isAuthenticated = true →
      s.isPhotoOperationScreen = false →
      (SessionManager.bgFg s).2 = [Effect.safeLogout] ∧
      (SessionManager.bgFg s).1.countdownRunning = false ∧
      (SessionManager.bgFg s).1.isAuthenticated = false ∧
      (SessionManager.bgFg s).1.showModal = false) := by
  constructor
  · intro s ha
    simp [SessionManager.handleAppStateChange, ha]
  · intro s ha hp
    simp [SessionManager.bgFg, SessionManager.handleAppStateChange,
      SessionManager.safeLogout, ha, hp]

/-- Witness for C3: a session whose countdown modal is showing, processed
through a backgrounding and a non-exempt foreground return. -/
theorem background_suspension_witness :
    (SessionManager.bgFg
        (SessionManager.advanceTo IDLE_TIME armedSession)).2 = [Effect.safeLogout] ∧
    (SessionManager.bgFg
        (SessionManager.advanceTo IDLE_TIME armedSession)).1.countdownRunning = false :=
  ⟨(background_suspension.2 (SessionManager.advanceTo IDLE_TIME armedSession) rfl rfl).1,
   (background_suspension.2 (SessionManager.advanceTo IDLE_TIME armedSession) rfl rfl).2.1⟩

/-- C4.  A countdown started by `startCountdown` (10 ticks at 1 Hz) and left
uncancelled invokes forced logout at exactly the tenth tick — never earlier —
with the medium haptic pulse fired at the ninth tick, the tick at which the
counter reads 2; and `handleStay` at any tick before expiry hides the modal,
clears the interval and rearms the idle deadline `IDLE_TIME` from the
current virtual time. -/
theorem countdown_terminality :
    (∀ s : SessionManager.SMState,
      (SessionManager.countdownTicks 10 (SessionManager.startCountdown s)).2 =
        [Effect.hapticMedium, Effect.hapticError, Effect.safeLogout] ∧
      (SessionManager.countdownTicks 10
        (SessionManager.startCountdown s)).1.isAuthenticated = false ∧
      (SessionManager.countdownTicks 10
        (SessionManager.startCountdown s)).1.showModal = false ∧
      (SessionManager.countdownTicks 10
        (SessionManager.startCountdown s)).1.countdownRunning = false) ∧
    (∀ (s : SessionManager.SMState) (k : Nat), k < 10 →
      Effect.safeLogout ∉
        (SessionManager.countdownTicks k (SessionManager.startCountdown s)).2 ∧
      (SessionManager.countdownTicks k
        (SessionManager.startCountdown s)).1.isAuthenticated = s.isAuthenticated) ∧
    (∀ s : SessionManager.SMState,
      (SessionManager.countdownTicks 8
        (SessionManager.startCountdown s)).1.countdown = 2 ∧
      (SessionManager.countdownTicks 9 (SessionManager.startCountdown s)).2 =
        [Effect.hapticMedium]) ∧
    (∀ (s : SessionManager.SMState) (k : Nat), k < 10 → s.isAuthenticated = true →
      s.timeoutDisabled = false →
      (SessionManager.handleStay
        (SessionManager.countdownTicks k (SessionManager.startCountdown s)).1).showModal
        = false ∧
      (SessionManager.handleStay
        (SessionManager.countdownTicks k
          (SessionManager.startCountdown s)).1).countdownRunning = false ∧
      (SessionManager.handleStay
        (SessionManager.countdownTicks k (SessionManager.startCountdown s)).1).idleDeadline
        = some (s.now + IDLE_TIME)) := by
  refine ⟨?_, ?_, ?_, ?_⟩
  · intro s
    rw [SessionManager.ticks10]
    exact ⟨rfl, rfl, rfl, rfl⟩
  · intro s k hk
    obtain ⟨hs, hn⟩ := SessionManager.ticks_lt10 s k hk
    exact ⟨hn, by rw [hs]⟩
  · intro s
    constructor
    · rw [SessionManager.ticks8]
    · rw [SessionManager.ticks9]
  · intro s k hk ha hd
    obtain ⟨hs, _⟩ := SessionManager.ticks_lt10 s k hk
    rw [hs]
    simp [SessionManager.handleStay, SessionManager.resetIdleTimer, ha, hd]

/-- Witness for C4 at the fresh session, five ticks into the countdown. -/
theorem countdown_terminality_witness :
    Effect.safeLogout ∉
      (SessionManager.countdownTicks 5 (SessionManager.startCountdown sessionStart)).2 ∧
    (SessionManager.handleStay
      (SessionManager.countdownTicks 5
        (SessionManager.startCountdown sessionStart)).1).idleDeadline
      = some (sessionStart.now + IDLE_TIME) :=
  ⟨(countdown_terminality.2.1 sessionStart 5 (by decide)).1,
   (countdown_terminality.2.2.2 sessionStart 5 (by decide) rfl rfl).2.2⟩

/-- C5.  While `Unlocked` with an armed deadline: reaching the deadline with
no interaction shows the modal and starts the countdown at 10; an
interaction strictly before the deadline cancels it and rearms from zero at
`t + IDLE_TIME`; across any sequence of interactions each strictly before
the then-current deadline the countdown never starts; and no rearm happens
while the countdown modal is showing. -/
theorem idle_correctness :
    (∀ (s : SessionManager.SMState) (t d : Nat),
      s.idleDeadline = some d → d ≤ t →
      (SessionManager.advanceTo t s).showModal = true ∧
      (SessionManager.advanceTo t s).countdownRunning = true ∧
      (SessionManager.advanceTo t s).countdown = COUNTDOWN_SECONDS) ∧
    (∀ (s : SessionManager.SMState) (t d : Nat),
      SessionManager.IdleInv s → s.idleDeadline = some d → t < d →
      SessionManager.interactAt t s =
        { s with now := t, idleDeadline := some (t + IDLE_TIME) }) ∧
    (∀ (s : SessionManager.SMState) (ts : List Nat),
      SessionManager.IdleInv s → SessionManager.BeforeDeadlines s ts →
      (SessionManager.runInteractions s ts).showModal = false ∧
      (SessionManager.runInteractions s ts).countdownRunning = false) ∧
    (∀ s : SessionManager.SMState, s.showModal = true →
      SessionManager.handleUserInteraction s = s) := by
  refine ⟨?_, ?_, ?_, ?_⟩
  · intro s t d hd hle
    simp [SessionManager.advanceTo, SessionManager.startCountdown, hd, hle]
  · intro s t d hinv hd ht
    exact SessionManager.interactAt_before_deadline s t d hinv hd ht
  · intro s ts hinv hbd
    have h := SessionManager.runInteractions_idleInv s ts hbd hinv
    exact ⟨h.2.2.1, h.2.2.2⟩
  · intro s hm
    simp [SessionManager.handleUserInteraction, hm]

/-- Witness for C5 at the armed fresh session: the deadline fires when
reached, one early interaction keeps the countdown off, and the fired state
ignores interactions. -/
theorem idle_correctness_witness :
    (SessionManager.advanceTo IDLE_TIME armedSession).showModal = true ∧
    (SessionManager.runInteractions armedSession [100]).showModal = false ∧
    SessionManager.handleUserInteraction (SessionManager.advanceTo IDLE_TIME armedSession)
      = SessionManager.advanceTo IDLE_TIME armedSession :=
  ⟨(idle_correctness.1 armedSession IDLE_TIME (0 + IDLE_TIME) rfl (by decide)).1,
   (idle_correctness.2.2.1 armedSession [100] ⟨rfl, rfl, rfl, rfl⟩
     (SessionManager.BeforeDeadlines.cons armedSession 100 [] (0 + IDLE_TIME) rfl
       (by decide) (SessionManager.BeforeDeadlines.nil _))).1,
   idle_correctness.2.2.2 (SessionManager.advanceTo IDLE_TIME armedSession)
     (idle_correctness.1 armedSession IDLE_TIME (0 + IDLE_TIME) rfl (by decide)).1⟩

/-- C6.  The event-loop trace of `safeLogout` invoked at time 0: the
synchronous turn performs only the modal hide; clearing authentication
happens in the next scheduling turn (the `setTimeout(..., 0)` task); the
navigation to the Pin screen happens in a further turn, 150 ms later, after
authentication has been cleared. -/
theorem forced_logout_sequencing :
    EventLoop.trace 4 EventLoop.safeLogoutProg =
      [(0, [EventLoop.UIAct.hideModal]),
       (0, [EventLoop.UIAct.clearAuth]),
       (150, [EventLoop.UIAct.navigate])] := rfl

/-- C7.  A visibility event delivered while unauthenticated changes nothing:
the current revision's handler (whose subscription is gated on
authentication) returns the state unchanged with no effects, and the first
revision's ungated listener also leaves the state unchanged because
`resetIdleTimer` early-returns when unauthenticated. -/
theorem unauthenticated_noop :
    ∀ (s : SessionManager.SMState) (ev : AppStateEvent),
      s.isAuthenticated = false →
      SessionManager.handleAppStateChange ev s = (s, []) ∧
      SessionManagerV1.handleAppStateChange ev s = s := by
  intro s ev ha
  constructor
  · simp [SessionManager.handleAppStateChange, ha]
  · cases ev <;>
      simp [SessionManagerV1.handleAppStateChange, SessionManager.resetIdleTimer, ha]

/-- Witness for C7 at the logged-out fresh session. -/
theorem unauthenticated_noop_witness :
    SessionManager.handleAppStateChange AppStateEvent.active
        (SessionManager.safeLogout sessionStart).1 =
      ((SessionManager.safeLogout sessionStart).1, []) ∧
    SessionManagerV1.handleAppStateChange AppStateEvent.active
        (SessionManager.safeLogout sessionStart).1 =
      (SessionManager.safeLogout sessionStart).1 :=
  unauthenticated_noop (SessionManager.safeLogout sessionStart).1 AppStateEvent.active rfl

/-- C8.  In the verification branch of `handleSubmit`, a PIN that does not
match the stored secret sets the inline error, clears the entered input,
leaves the session unauthenticated and the stored secret untouched, and
reports the failure through the returned state and the error haptic — the
embedded function is total, so nothing is thrown. -/
theorem pin_mismatch_recoverable :
    ∀ (persistOk : Bool) (s : PinScreen.PinState),
      s.isCreating = false → some s.pin ≠ s.storedPin → s.isAuthenticated = false →
      (PinScreen.handleSubmit persistOk s).1.error = "Incorrect PIN" ∧
      (PinScreen.handleSubmit persistOk s).1.pin = "" ∧
      (PinScreen.handleSubmit persistOk s).1.isAuthenticated = false ∧
      (PinScreen.handleSubmit persistOk s).1.storedPin = s.storedPin ∧
      (PinScreen.handleSubmit persistOk s).2 = [Effect.hapticError] := by
  intro p s hc hne ha
  simp [PinScreen.handleSubmit, hc, hne, ha]

/-- Witness for C8: entering 1111 against the stored 1234. -/
theorem pin_mismatch_recoverable_witness :
    (PinScreen.handleSubmit true pinGate).1.error = "Incorrect PIN" ∧
    (PinScreen.handleSubmit true pinGate).1.pin = "" ∧
    (PinScreen.handleSubmit true pinGate).1.isAuthenticated = false :=
  ⟨(pin_mismatch_recoverable true pinGate rfl (by decide) rfl).1,
   (pin_mismatch_recoverable true pinGate rfl (by decide) rfl).2.1,
   (pin_mismatch_recoverable true pinGate rfl (by decide) rfl).2.2.1⟩

/-- C9.  With the timeout-disable setting on, the idle deadline is never
armed and the countdown interval is never live across any sequence of
activities — so no deadline ever fires and no countdown tick occurs; yet the
foreground branch of the AppState handler does not consult
`timeoutDisabled`: while authenticated with no pending exemption it invokes
`safeLogout` regardless. -/
theorem timeout_disabled_override :
    (∀ (s : SessionManager.SMState) (ops : List SessionManager.Op),
      SessionManager.TimeoutOffInv s →
      SessionManager.TimeoutOffInv (SessionManager.run s ops).1) ∧
    (∀ (s : SessionManager.SMState) (t : Nat), SessionManager.TimeoutOffInv s →
      SessionManager.advanceTo t s = { s with now := t }) ∧
    (∀ s : SessionManager.SMState, SessionManager.TimeoutOffInv s →
      SessionManager.countdownTick s = (s, [])) ∧
    (∀ s : SessionManager.SMState, s.isAuthenticated = true →
      s.isPhotoOperationScreen = false →
      SessionManager.handleAppStateChange AppStateEvent.active s =
        SessionManager.safeLogout s) := by
  refine ⟨?_, ?_, ?_, ?_⟩
  · intro s ops hinv
    exact SessionManager.timeoutOff_run s ops hinv
  · intro s t hinv
    simp [SessionManager.advanceTo, hinv.2.1]
  · intro s hinv
    simp [SessionManager.countdownTick, hinv.2.2]
  · intro s ha hp
    simp [SessionManager.handleAppStateChange, ha, hp]

/-- Witness for C9: the disabled fresh session through an interaction, a
backgrounding and a stray countdown tick, and the foreground logout. -/
theorem timeout_disabled_override_witness :
    SessionManager.TimeoutOffInv
      (SessionManager.run disabledSession
        [SessionManager.Op.interact 5,
         SessionManager.Op.appState AppStateEvent.background,
         SessionManager.Op.tick]).1 ∧
    SessionManager.handleAppStateChange AppStateEvent.active disabledSession =
      SessionManager.safeLogout disabledSession :=
  ⟨timeout_disabled_override.1 disabledSession
      [SessionManager.Op.interact 5,
       SessionManager.Op.appState AppStateEvent.background,
       SessionManager.Op.tick] ⟨rfl, rfl, rfl⟩,
   timeout_disabled_override.2.2.2 disabledSession rfl rfl⟩

/-- C10.  The `"background"` branch of the current revision's handler leaves
authentication and the exemption flag unchanged for every state — as well as
the timeout setting, the counter value and the clock — changing only the
timers and the modal flag, and produces no effects. -/
theorem background_preserves_auth :
    ∀ s : SessionManager.SMState,
      (SessionManager.handleAppStateChange AppStateEvent.background s).1.isAuthenticated
        = s.isAuthenticated ∧
      (SessionManager.handleAppStateChange
          AppStateEvent.background s).1.isPhotoOperationScreen
        = s.isPhotoOperationScreen ∧
      (SessionManager.handleAppStateChange AppStateEvent.background s).1.timeoutDisabled
        = s.timeoutDisabled ∧
      (SessionManager.handleAppStateChange AppStateEvent.background s).1.countdown
        = s.countdown ∧
      (SessionManager.handleAppStateChange AppStateEvent.background s).1.now = s.now ∧
      (SessionManager.handleAppStateChange AppStateEvent.background s).2 = [] := by
  intro s
  by_cases ha : s.isAuthenticated = false <;>
    simp [SessionManager.handleAppStateChange, ha]

end Powerlift
